import Mathlib

/- Verification development for the CSV ingestion pipeline of the R-Lake
repository (`ingest/processors.py`, with collaborators in
`ingest/serializers.py` and `ingest/models.py`).

The Python code is shallowly embedded: pandas dataframes become explicit
column lists of rendered cell strings together with their pandas dtype;
Django model writes become explicit state passing over a `DB` record;
`transaction.atomic` is modelled by discarding all writes of a run when the
wrapped computation exits with an error; fallible operations return
`Except`/`Option`.  External libraries that the code calls are modelled at
the granularity the code observes them: `chardet.detect` is an input
function, `hashlib.sha256` is implemented bit-faithfully over `Nat`,
`json.dumps(..., sort_keys=True)` is implemented over association lists,
`float`/`pd.to_numeric` become a decimal-literal parser, `pd.to_datetime`
a date-literal recognizer, and `re.match` a regular-expression prefix
matcher over `Mathlib`'s `RegularExpression`. -/

namespace RLake

/-! ### Character/string helpers (models of Python string primitives) -/

/-- Model of Python's `'.' in str(val)` membership test: the character
occurs in the string. -/
def containsDot (s : String) : Bool :=
  s.data.contains '.'

/-- ASCII lower-casing of one character, the fragment of `str.lower`
exercised by the code (rule-type names and boolean literals are ASCII). -/
def pyCharLower (c : Char) : Char :=
  if 65 ≤ c.toNat ∧ c.toNat ≤ 90 then Char.ofNat (c.toNat + 32) else c

/-- Model of Python's `str.lower` (ASCII fragment). -/
def pyLower (s : String) : String :=
  ⟨s.data.map pyCharLower⟩

/-- Split a leading run of decimal digits off a character list. -/
def takeDigits : List Char → List Char × List Char
  | [] => ([], [])
  | c :: t =>
    if c.isDigit then
      let p := takeDigits t
      (c :: p.1, p.2)
    else ([], c :: t)

/-- Numeric value of a digit run. -/
def digitsVal (ds : List Char) : Nat :=
  ds.foldl (fun a c => a * 10 + (c.toNat - 48)) 0

/-- Rational value of integer part `ip` and fraction part `fp`. -/
def ratOfParts (ip fp : List Char) : Rat :=
  (digitsVal ip : Rat) + (digitsVal fp : Rat) / (10 : Rat) ^ fp.length

/-- Split an optional leading `+`/`-` sign, as a rational multiplier. -/
def parseSign (cs : List Char) : Rat × List Char :=
  match cs with
  | [] => (1, [])
  | c :: t => if c = '+' then (1, t) else if c = '-' then (-1, t) else (1, c :: t)

/-- Split an optional leading `+`/`-` sign, as an integer multiplier. -/
def parseSignInt (cs : List Char) : Int × List Char :=
  match cs with
  | [] => (1, [])
  | c :: t => if c = '+' then (1, t) else if c = '-' then (-1, t) else (1, c :: t)

/-- Split an optional `.`-led fraction digit run. -/
def parseFrac (cs : List Char) : List Char × List Char :=
  match cs with
  | [] => ([], [])
  | c :: t => if c = '.' then takeDigits t else ([], c :: t)

/-- Model of the numeric-literal parser behind Python's `float(...)` and
pandas' `pd.to_numeric` on a string: optional sign, decimal digits with an
optional fraction part, optional exponent.  Returns `none` exactly when the
Python call raises `ValueError`.  (Exotic spellings such as `inf`, `nan` or
underscore separators are outside the modelled fragment.) -/
def strToRat (s : String) : Option Rat :=
  let sp := parseSign s.data
  let ipp := takeDigits sp.2
  let fpp := parseFrac ipp.2
  match fpp.2 with
  | [] =>
    if ipp.1.isEmpty ∧ fpp.1.isEmpty then none
    else some (sp.1 * ratOfParts ipp.1 fpp.1)
  | e :: t =>
    if e = 'e' ∨ e = 'E' then
      let esp := parseSignInt t
      let edp := takeDigits esp.2
      if edp.2.isEmpty ∧ ¬ edp.1.isEmpty ∧ ¬ (ipp.1.isEmpty ∧ fpp.1.isEmpty) then
        some (sp.1 * ratOfParts ipp.1 fpp.1 * (10 : Rat) ^ (esp.1 * (digitsVal edp.1 : Int)))
      else none
    else none

/-- The string parses as a number (`pd.to_numeric` succeeds on it). -/
def isNumStr (s : String) : Bool :=
  (strToRat s).isSome

/-- The string is a plain integer literal: optional sign followed by at
least one digit and nothing else. -/
def isIntLit (s : String) : Bool :=
  match s.data with
  | [] => false
  | c :: t =>
    let ds := if c = '+' ∨ c = '-' then t else c :: t
    ¬ ds.isEmpty ∧ ds.all Char.isDigit

/-- Model of `pd.to_datetime` succeeding on a string: the `YYYY-MM-DD`
date-literal fragment (the only shape the specification exercises), with
basic month/day range checks. -/
def isDateStr (s : String) : Bool :=
  match s.data with
  | [y1, y2, y3, y4, '-', m1, m2, '-', d1, d2] =>
    [y1, y2, y3, y4, m1, m2, d1, d2].all Char.isDigit ∧
      1 ≤ digitsVal [m1, m2] ∧ digitsVal [m1, m2] ≤ 12 ∧
      1 ≤ digitsVal [d1, d2] ∧ digitsVal [d1, d2] ≤ 31
  | _ => false

/-- Model of `pd.to_datetime(value).isoformat()` on a date literal: the
midnight time component is appended.  `none` when parsing fails. -/
def toIso (s : String) : Option String :=
  if isDateStr s then some (s ++ "T00:00:00") else none

/-- The lower-cased boolean vocabulary used by the type-inference boolean
check. -/
def boolTokens : List String :=
  ["true", "false", "1", "0", "yes", "no"]

/-! ### JSON values and `json.dumps(..., sort_keys=True)` -/

/-- A JSON value as stored into a row's `data` mapping: `null`, a numeric
literal (carried in its rendered form), or a string. -/
inductive JVal where
  | null : JVal
  | jnum (lit : String) : JVal
  | jstr (s : String) : JVal
deriving DecidableEq, Repr

/-- JSON escape of one character, as `json.dumps(..., ensure_ascii=False)`
produces it. -/
def jsonEscapeChar (c : Char) : String :=
  if c = '"' then "\\\""
  else if c = '\\' then "\\\\"
  else if c = '\n' then "\\n"
  else if c = '\t' then "\\t"
  else if c = '\r' then "\\r"
  else if c.toNat = 8 then "\\b"
  else if c.toNat = 12 then "\\f"
  else if c.toNat < 32 then
    "\\u00" ++ ⟨[Nat.digitChar (c.toNat / 16), Nat.digitChar (c.toNat % 16)]⟩
  else ⟨[c]⟩

/-- JSON string literal rendering. -/
def jsonString (s : String) : String :=
  "\"" ++ String.join (s.data.map jsonEscapeChar) ++ "\""

/-- Rendering of one JSON value. -/
def jvalRender : JVal → String
  | .null => "null"
  | .jnum lit => lit
  | .jstr s => jsonString s

/-- Key ordering used by `sort_keys=True`: compare the keys. -/
def keyLe (a b : String × JVal) : Prop :=
  a.1 ≤ b.1

instance : DecidableRel keyLe := fun a b => String.decidableLE a.1 b.1

instance : IsTotal (String × JVal) keyLe :=
  ⟨fun a b => le_total a.1 b.1⟩

instance : IsTrans (String × JVal) keyLe :=
  ⟨fun _ _ _ h h' => le_trans h h'⟩

/-- Model of `json.dumps(data, sort_keys=True, ensure_ascii=False)` for a
string-keyed mapping: items sorted by key, rendered with the default
`", "`/`": "` separators. -/
def jsonDumpsSorted (data : List (String × JVal)) : String :=
  let items := (data.insertionSort keyLe).map
    (fun kv => jsonString kv.1 ++ ": " ++ jvalRender kv.2)
  "\x7b" ++ String.intercalate ", " items ++ "\x7d"

/-! ### SHA-256 (model of `hashlib.sha256(...).hexdigest()`) -/

/-- UTF-8 encoding of one character as byte values. -/
def utf8Bytes (c : Char) : List Nat :=
  let n := c.toNat
  if n < 128 then [n]
  else if n < 2048 then
    [192 + n / 64, 128 + n % 64]
  else if n < 65536 then
    [224 + n / 4096, 128 + n / 64 % 64, 128 + n % 64]
  else
    [240 + n / 262144, 128 + n / 4096 % 64, 128 + n / 64 % 64, 128 + n % 64]

/-- UTF-8 encoding of a string (model of `str.encode('utf-8')`). -/
def strUtf8 (s : String) : List Nat :=
  s.data.flatMap utf8Bytes

/-- Truncation to a 32-bit word. -/
def w32 (n : Nat) : Nat :=
  n % 4294967296

/-- 32-bit right rotation. -/
def rotr (k x : Nat) : Nat :=
  w32 ((x >>> k) ||| (x <<< (32 - k)))

/-- The 64 SHA-256 round constants, in decimal. -/
def shaK : List Nat :=
  [1116352408, 1899447441, 3049323471, 3921009573, 961987163,
   1508970993, 2453635748, 2870763221, 3624381080, 310598401,
   607225278, 1426881987, 1925078388, 2162078206, 2614888103,
   3248222580, 3835390401, 4022224774, 264347078, 604807628,
   770255983, 1249150122, 1555081692, 1996064986, 2554220882,
   2821834349, 2952996808, 3210313671, 3336571891, 3584528711,
   113926993, 338241895, 666307205, 773529912, 1294757372,
   1396182291, 1695183700, 1986661051, 2177026350, 2456956037,
   2730485921, 2820302411, 3259730800, 3345764771, 3516065817,
   3600352804, 4094571909, 275423344, 430227734, 506948616,
   659060556, 883997877, 958139571, 1322822218, 1537002063,
   1747873779, 1955562222, 2024104815, 2227730452, 2361852424,
   2428436474, 2756734187, 3204031479, 3329325298]

/-- The eight SHA-256 initial hash words, in decimal. -/
def shaH0 : List Nat :=
  [1779033703, 3144134277, 1013904242,
   2773480762, 1359893119, 2600822924,
   528734635, 1541459225]

/-- SHA-256 message padding. -/
def shaPad (msg : List Nat) : List Nat :=
  let l := msg.length
  let padLen := (64 - (l + 9) % 64) % 64
  msg ++ [128] ++ List.replicate padLen 0 ++
    [w32 (l * 8) / 72057594037927936 % 256, l * 8 / 281474976710656 % 256,
     l * 8 / 1099511627776 % 256, l * 8 / 4294967296 % 256,
     l * 8 / 16777216 % 256, l * 8 / 65536 % 256,
     l * 8 / 256 % 256, l * 8 % 256]

/-- Group bytes into big-endian 32-bit words. -/
def bytesToWords : List Nat → List Nat
  | b0 :: b1 :: b2 :: b3 :: t => (b0 * 16777216 + b1 * 65536 + b2 * 256 + b3) :: bytesToWords t
  | _ => []

/-- Extend a 16-word block schedule by `n` words. -/
def shaExtend (w : List Nat) : Nat → List Nat
  | 0 => w
  | n + 1 =>
    let i := w.length
    let wm2 := w.getD (i - 2) 0
    let wm7 := w.getD (i - 7) 0
    let wm15 := w.getD (i - 15) 0
    let wm16 := w.getD (i - 16) 0
    let s0 := rotr 7 wm15 ^^^ rotr 18 wm15 ^^^ (wm15 >>> 3)
    let s1 := rotr 17 wm2 ^^^ rotr 19 wm2 ^^^ (wm2 >>> 10)
    shaExtend (w ++ [w32 (wm16 + s0 + wm7 + s1)]) n

/-- One SHA-256 compression step over the eight-word working state. -/
def shaStep (st : List Nat) (kw : Nat × Nat) : List Nat :=
  match st with
  | [a, b, c, d, e, f, g, h] =>
    let s1 := rotr 6 e ^^^ rotr 11 e ^^^ rotr 25 e
    let ch := (e &&& f) ^^^ ((4294967295 - e) &&& g)
    let t1 := w32 (h + s1 + ch + kw.1 + kw.2)
    let s0 := rotr 2 a ^^^ rotr 13 a ^^^ rotr 22 a
    let mj := (a &&& b) ^^^ (a &&& c) ^^^ (b &&& c)
    let t2 := w32 (s0 + mj)
    [w32 (t1 + t2), a, b, c, w32 (d + t1), e, f, g]
  | st => st

/-- Compress one 16-word block into the hash state. -/
def shaBlock (h : List Nat) (block : List Nat) : List Nat :=
  let w := shaExtend block 48
  let st := (shaK.zip w).foldl shaStep h
  (h.zip st).map (fun p => w32 (p.1 + p.2))

/-- Split a word list into 16-word chunks. -/
def chunks16 : List Nat → List (List Nat)
  | [] => []
  | a :: t => ((a :: t).take 16) :: chunks16 ((a :: t).drop 16)
termination_by l => l.length
decreasing_by simp [List.length_drop]; omega

/-- Two-character lowercase hex rendering of a byte-bounded value. -/
def hexByte (n : Nat) : List Char :=
  [Nat.digitChar (n / 16 % 16), Nat.digitChar (n % 16)]

/-- Eight-character lowercase hex rendering of a 32-bit word. -/
def hexWord (n : Nat) : List Char :=
  hexByte (n / 65536 / 256) ++ hexByte (n / 65536 % 256) ++
    hexByte (n % 65536 / 256) ++ hexByte (n % 65536 % 256)

/-- Model of `hashlib.sha256(bytes).hexdigest()`. -/
def sha256hex (s : String) : String :=
  let padded := shaPad (strUtf8 s)
  let blocks := chunks16 (bytesToWords padded)
  let hFinal := blocks.foldl shaBlock shaH0
  ⟨(hFinal.map hexWord).flatten⟩

/-- `CSVProcessor.generate_data_hash`: SHA-256 hex digest of the canonical
JSON serialization (`sort_keys=True, ensure_ascii=False`) of the row's
value mapping. -/
def generate_data_hash (data : List (String × JVal)) : String :=
  sha256hex (jsonDumpsSorted data)

/-! ### Dataframes

A pandas dataframe produced by `pd.read_csv` is embedded column-wise: each
column carries its pandas dtype and its cells, a cell being `none` for
`NaN` and otherwise the rendered form of the stored value (the decimal
rendering for numeric dtypes, the raw text for `object`).  The dtypes
`datetime64` and `bool`, which `read_csv` produces only for inputs no
claim exercises, are outside the modelled fragment. -/

/-- The pandas dtypes the embedding distinguishes. -/
inductive Dtype where
  | int64 : Dtype
  | float64 : Dtype
  | object : Dtype
deriving DecidableEq, Repr

/-- `str(series.dtype)`. -/
def dtypeName : Dtype → String
  | .int64 => "int64"
  | .float64 => "float64"
  | .object => "object"

/-- One dataframe column: its dtype and its cells (`none` = `NaN`). -/
structure PdSeries where
  dtype : Dtype
  cells : List (Option String)
deriving DecidableEq, Repr

/-- `series.dropna()`: the non-null cells. -/
def nonNullCells (c : PdSeries) : List String :=
  c.cells.filterMap id

/-- A dataframe: named columns in source order. -/
structure DataFrame where
  cols : List (String × PdSeries)
deriving DecidableEq, Repr

/-- `len(df)`: number of rows (all columns have equal length under
well-formedness; the first column's length is representative). -/
def dfNumRows (df : DataFrame) : Nat :=
  match df.cols with
  | [] => 0
  | c :: _ => c.2.cells.length

/-- `df.empty`: some axis has length zero. -/
def dfEmpty (df : DataFrame) : Bool :=
  df.cols.isEmpty || dfNumRows df == 0

/-- Consistency of a column with its pandas dtype: an `int64` column holds
integer literals and cannot hold `NaN`; a `float64` column's non-null cells
render as numeric literals with a decimal point; `object` cells are
unconstrained text. -/
def wfSeries (c : PdSeries) : Bool :=
  match c.dtype with
  | .int64 => c.cells.all Option.isSome && (nonNullCells c).all isIntLit
  | .float64 => (nonNullCells c).all (fun s => isNumStr s && containsDot s)
  | .object => true

/-- Well-formed dataframe: equal column lengths, unique column names,
dtype-consistent columns. -/
def WFDataFrame (df : DataFrame) : Prop :=
  (∀ c ∈ df.cols, c.2.cells.length = dfNumRows df) ∧
    (df.cols.map Prod.fst).Nodup ∧
    ∀ c ∈ df.cols, wfSeries c.2 = true

instance : DecidablePred WFDataFrame := fun df => by
  unfold WFDataFrame; infer_instance

/-! ### Type inference (`CSVProcessor.infer_column_types`) -/

/-- The semantic column types of `DataSchema.COLUMN_TYPES`. -/
inductive ColType where
  | INTEGER : ColType
  | FLOAT : ColType
  | STRING : ColType
  | DATETIME : ColType
  | BOOLEAN : ColType
deriving DecidableEq, Repr

/-- Per-column body of `CSVProcessor.infer_column_types`: entirely-null
columns are STRING; integer/float pandas dtypes answer immediately; an
`object` column is probed with `pd.to_numeric` (a decimal point in any
value selecting FLOAT over INTEGER), then `pd.to_datetime`, then the
boolean vocabulary check on the lower-cased value set, defaulting to
STRING. -/
def infer_column_type (c : PdSeries) : ColType :=
  let nn := nonNullCells c
  if nn.isEmpty then .STRING
  else if c.dtype = .int64 then .INTEGER
  else if c.dtype = .float64 then .FLOAT
  else if nn.all isNumStr then
    if nn.any containsDot then .FLOAT else .INTEGER
  else if nn.all isDateStr then .DATETIME
  else if nn.all (fun v => boolTokens.contains (pyLower v)) then .BOOLEAN
  else .STRING

/-- `CSVProcessor.infer_column_types` over the whole dataframe. -/
def infer_column_types (df : DataFrame) : List (String × ColType) :=
  df.cols.map (fun c => (c.1, infer_column_type c.2))

/-- The claim's priority chain, written from the specification's words over
the non-null values of a column.  "Parses as an integer" follows the
specification's tie-break: a numeric value without a decimal point.  First
matching rule wins. -/
def specInferType (nn : List String) : ColType :=
  if nn.isEmpty then .STRING
  else if nn.all (fun v => isNumStr v && !containsDot v) then .INTEGER
  else if nn.all isNumStr then .FLOAT
  else if nn.all isDateStr then .DATETIME
  else if nn.all (fun v => boolTokens.contains (pyLower v)) then .BOOLEAN
  else .STRING

/-! ### Statistics (`CSVProcessor.calculate_statistics`)

Only the statistics the pipeline persists into `DataSchema` rows
(`min_value`, `max_value`, `unique_count`) plus `null_count` are modelled;
`mean`/`std` are computed by the source but written nowhere the claims can
observe. -/

/-- Result of `calculate_statistics` (the consumed fields). -/
structure PyStats where
  min_value : Option Rat := none
  max_value : Option Rat := none
  unique_count : Nat := 0
  null_count : Nat := 0
deriving DecidableEq, Repr

/-- Fold minimum over the tail. -/
def ratListMin (x : Rat) (t : List Rat) : Rat :=
  t.foldl (fun a b => if b < a then b else a) x

/-- Fold maximum over the tail. -/
def ratListMax (x : Rat) (t : List Rat) : Rat :=
  t.foldl (fun a b => if a < b then b else a) x

/-- `CSVProcessor.calculate_statistics`: numeric min/max over the
`pd.to_numeric(errors='coerce')` coercible subset of non-null cells,
distinct count over the raw non-null cells, null count against the full
column length. -/
def calculate_statistics (c : PdSeries) (column_type : ColType) : PyStats :=
  let series := nonNullCells c
  let base : PyStats :=
    { unique_count := series.dedup.length
      null_count := c.cells.length - series.length }
  if column_type = .INTEGER ∨ column_type = .FLOAT then
    match series.filterMap strToRat with
    | [] => base
    | x :: t =>
      { base with
        min_value := some (ratListMin x t)
        max_value := some (ratListMax x t) }
  else base

/-! ### Stored model rows and the database state

The Django models touched by one `process_csv` run on one dataset and one
raw file are embedded as plain records; the `DB` structure is the visible
database state for that dataset/file pair. -/

/-- A persisted `DataSchema` row (fields written by `process_csv`). -/
structure SchemaRow where
  column_name : String
  column_type : ColType
  column_order : Nat
  min_value : Option Rat := none
  max_value : Option Rat := none
  unique_count : Nat := 0
deriving DecidableEq, Repr

/-- A persisted `DataRecord` row. -/
structure RecordRow where
  row_number : Nat
  data : List (String × JVal)
  data_hash : String
deriving DecidableEq, Repr

/-- Per-column entry of `quality_details['column_quality']`. -/
structure ColQuality where
  column : String
  completeness_percentage : Rat
  null_count : Nat
  unique_values : Nat
  data_type : String
deriving DecidableEq, Repr

/-- A persisted `DataQualityReport` row. -/
structure QualityReport where
  total_records : Nat
  valid_records : Nat
  invalid_records : Nat
  duplicate_records : Nat
  column_quality : List ColQuality
deriving DecidableEq, Repr

/-- Database state for the target dataset and its raw file. -/
structure DB where
  schema : List SchemaRow
  records : List RecordRow
  reports : List QualityReport
  datasetTotalRows : Nat
  rawProcessed : Bool
  rawEncoding : String
  rawDelimiter : String
  rawProcessingError : String
deriving DecidableEq, Repr

/-- The summary dictionary `process_csv` returns on success. -/
structure IngestResult where
  success : Bool
  total_rows : Nat
  processed_rows : Nat
  error_rows : Nat
  duplicate_rows : Nat
  columns : List String
  quality_score : Rat
deriving DecidableEq, Repr

/-! ### The row loop and the pipeline -/

/-- The shape of the per-row loop of `process_csv`: each element is pushed
through the fallible row builder inside a `try`; a success is appended to
the staging list, a failure increments the error counter.  Stated
generically in the row builder so the accounting invariant covers every
per-row failure mode (for the modelled builder no row fails). -/
def processRows (f : α → Except String β) : List α → List β × Nat
  | [] => ([], 0)
  | a :: t =>
    let p := processRows f t
    match f a with
    | .ok r => (r :: p.1, p.2)
    | .error _ => (p.1, p.2 + 1)

/-- Body of the per-row `try`: build the row's value mapping (`NaN` to
null, DATETIME cells normalized to ISO form with the raw string as
fallback, numeric dtypes passing through as JSON numbers, text as JSON
strings), hash it, and stage a `DataRecord`. -/
def buildRecord (df : DataFrame) (column_types : List (String × ColType))
    (i : Nat) : Except String RecordRow :=
  let data := df.cols.map (fun c =>
    (c.1,
      match c.2.cells.getD i none with
      | none => JVal.null
      | some s =>
        if (column_types.lookup c.1).getD .STRING = .DATETIME then
          JVal.jstr ((toIso s).getD s)
        else
          match c.2.dtype with
          | .int64 => JVal.jnum s
          | .float64 => JVal.jnum s
          | .object => JVal.jstr s))
  .ok { row_number := i + 1, data := data, data_hash := generate_data_hash data }

/-- `CSVProcessor.create_quality_report`: totals from the dataframe length,
`valid = total - errors`, the duplicate count passed through, and
per-column completeness details.  Reached only with a nonempty dataframe
(the per-column division is by the column length). -/
def create_quality_report (df : DataFrame) (error_count duplicate_count : Nat) :
    QualityReport :=
  let total_records := dfNumRows df
  { total_records := total_records
    valid_records := total_records - error_count
    invalid_records := error_count
    duplicate_records := duplicate_count
    column_quality := df.cols.map (fun c =>
      let len := c.2.cells.length
      let null_count := len - (nonNullCells c.2).length
      { column := c.1
        completeness_percentage := ((len - null_count : Nat) : Rat) / (len : Rat) * 100
        null_count := null_count
        unique_values := (nonNullCells c.2).dedup.length
        data_type := dtypeName c.2.dtype }) }

/-- The body of `CSVProcessor.process_csv` after encoding/delimiter
detection and `pd.read_csv` (both modelled as inputs): empty-dataframe
check, type inference, delete-then-recreate of schema and records, the
per-row staging loop with its constant-zero duplicate counter, bulk insert,
dataset/raw-file metadata updates, quality-report creation, and the result
summary with its unguarded `valid/total` score. -/
def processCsvBody (encoding delimiter : String) (df : DataFrame) (db : DB) :
    Except String (DB × IngestResult) :=
  if dfEmpty df then .error "CSVファイルにデータが含まれていません"
  else
    let column_types := infer_column_types df
    let db := { db with schema := [] }
    let schema := column_types.enum.map (fun p =>
      let stats := calculate_statistics
        ((df.cols.lookup p.2.1).getD { dtype := .object, cells := [] }) p.2.2
      { column_name := p.2.1
        column_type := p.2.2
        column_order := p.1
        min_value := stats.min_value
        max_value := stats.max_value
        unique_count := stats.unique_count : SchemaRow })
    let db := { db with schema := schema }
    let db := { db with records := [] }
    let duplicate_count := 0
    let pr := processRows (buildRecord df column_types) (List.range (dfNumRows df))
    let records_to_create := pr.1
    let error_count := pr.2
    let db := { db with records := records_to_create }
    let db := { db with datasetTotalRows := records_to_create.length }
    let db := { db with rawProcessed := true, rawEncoding := encoding,
                        rawDelimiter := delimiter }
    let report := create_quality_report df error_count duplicate_count
    let db := { db with reports := db.reports ++ [report] }
    .ok (db,
      { success := true
        total_rows := dfNumRows df
        processed_rows := records_to_create.length
        error_rows := error_count
        duplicate_rows := duplicate_count
        columns := column_types.map Prod.fst
        quality_score := (report.valid_records : Rat) / (report.total_records : Rat) * 100 })

/-- `CSVProcessor.process_csv` under its `@transaction.atomic` decorator.
The input models detection plus `pd.read_csv` (an `error` is a read/parse
failure).  On any exception the `except` branch assigns the error text to
`raw_file.processing_error`, saves, and re-raises a `ValidationError`; the
re-raise exits the atomic block, so Django rolls back every write of the
run — including that very save — leaving the database exactly as it was. -/
def process_csv (parsed : Except String (String × String × DataFrame)) (db : DB) :
    DB × Except String IngestResult :=
  match (match parsed with
         | .error e => Except.error e
         | .ok p => processCsvBody p.1 p.2.1 p.2.2 db) with
  | .ok p => (p.1, .ok p.2)
  | .error e => (db, .error ("CSV処理中にエラーが発生しました: " ++ e))

/-- `DataQualityReportSerializer.get_quality_score`
(`ingest/serializers.py`): the zero-guarded score over a stored report. -/
def get_quality_score (rep : QualityReport) : Rat :=
  if 0 < rep.total_records then
    (rep.valid_records : Rat) / (rep.total_records : Rat) * 100
  else 0

/-! ### Encoding detection (`CSVProcessor.detect_encoding`) -/

/-- The dictionary `chardet.detect` returns: a possibly-absent encoding
name and a confidence. -/
structure ChardetResult where
  encoding : Option String
  confidence : Rat
deriving DecidableEq, Repr

/-- `CSVProcessor.detect_encoding`: read at most the first 10000 bytes,
run `chardet.detect` on them, accept the detected encoding only when the
confidence strictly exceeds 0.7, and return UTF-8 otherwise; any failure
(of the read or of the detector, both modelled as `Except` inputs) is
caught and also yields UTF-8.  The function is total: no input makes it
raise. -/
def detect_encoding (readBytes : Except String (List Nat))
    (chardet : List Nat → Except String ChardetResult) : Option String :=
  match readBytes with
  | .error _ => some "utf-8"
  | .ok bs =>
    match chardet (bs.take 10000) with
    | .error _ => some "utf-8"
    | .ok r => if 7 / 10 < r.confidence then r.encoding else some "utf-8"

/-! ### The validation rule engine (`DataValidator`) -/

/-- A Python value as found in a stored record's JSON data. -/
inductive PyVal where
  | vnone : PyVal
  | vstr (s : String) : PyVal
  | vnum (q : Rat) : PyVal
  | vbool (b : Bool) : PyVal
deriving DecidableEq, Repr

/-- Model of Python's `float(value)`: `None` raises `TypeError`, strings
parse as decimal literals or raise `ValueError`, numbers pass through,
booleans coerce to 0/1. -/
def pyFloat : PyVal → Option Rat
  | .vnone => none
  | .vstr s => strToRat s
  | .vnum q => some q
  | .vbool b => some (if b then 1 else 0)

/-- Model of Python's `str(value)` on record values (integral numbers
render as their integer literal; the non-integral rendering is
simplified). -/
def pyStr : PyVal → String
  | .vnone => "None"
  | .vstr s => s
  | .vnum q => if q.den = 1 then toString q.num else toString q
  | .vbool b => if b then "True" else "False"

/-- A rule's `rule_config` JSON dictionary (the keys the validators
read). -/
structure RuleConfig where
  min : Option Rat := none
  max : Option Rat := none
  pattern : Option String := none
deriving DecidableEq, Repr

/-- A `DataValidationRule` row. -/
structure VRule where
  column_name : String
  rule_type : String
  rule_config : RuleConfig
  is_active : Bool
deriving DecidableEq, Repr

/-- `DataValidator.validate_range`: coerce to a number (coercion failure
fails the rule), then test the configured inclusive bounds, a missing
bound constraining nothing. -/
def validate_range (value : PyVal) (config : RuleConfig) : Bool :=
  match pyFloat value with
  | none => false
  | some num_value =>
    if (match config.min with | some m => decide (num_value < m) | none => false) then
      false
    else if (match config.max with | some m => decide (m < num_value) | none => false) then
      false
    else true

/-- Characters compiled as literals by the modelled `re` fragment. -/
def reLiteralChar (c : Char) : Bool :=
  c.isAlphanum || c = ' ' || c = '_' || c = '-' || c = ':' || c = '/' || c = '@'

/-- Compiler for the modelled fragment of Python's `re` syntax: literal
characters and the postfix quantifiers `*`, `+`, `?`.  Patterns outside
the fragment (or invalid ones, such as a leading or doubled quantifier,
which `re` rejects) yield `none`. -/
def reCompileAux : List Char → RegularExpression Char →
    Option (RegularExpression Char) → Option (RegularExpression Char)
  | [], done, none => some done
  | [], done, some r => some (done * r)
  | c :: t, done, last =>
    if c = '*' then
      match last with
      | some r => reCompileAux t (done * r.star) none
      | none => none
    else if c = '+' then
      match last with
      | some r => reCompileAux t (done * (r * r.star)) none
      | none => none
    else if c = '?' then
      match last with
      | some r => reCompileAux t (done * (r + 1)) none
      | none => none
    else if reLiteralChar c then
      match last with
      | some r => reCompileAux t (done * r) (some (RegularExpression.char c))
      | none => reCompileAux t done (some (RegularExpression.char c))
    else none

/-- Compile a pattern string. -/
def reCompile (p : String) : Option (RegularExpression Char) :=
  reCompileAux p.data 1 none

/-- Model of `re.match(pattern, s)` truthiness: some prefix of `s` is in
the pattern's language — anchored at position 0 and not required to
consume the whole string. -/
def rePrefixMatch (r : RegularExpression Char) (s : List Char) : Bool :=
  (List.range (s.length + 1)).any (fun n => r.rmatch (s.take n))

/-- `DataValidator.validate_pattern`: a missing or empty (falsy) pattern
passes everything; otherwise `re.match` against the value's string form,
any exception (e.g. an invalid pattern) failing closed. -/
def validate_pattern (value : PyVal) (config : RuleConfig) : Bool :=
  match config.pattern with
  | none => true
  | some p =>
    if p = "" then true
    else
      match reCompile p with
      | none => false
      | some r => rePrefixMatch r (pyStr value).data

/-- `DataValidator.validate_not_null`: non-null and not the empty string
(`pd.isna` adding nothing for the modelled values beyond the `None`
check). -/
def validate_not_null (value : PyVal) (_config : RuleConfig) : Bool :=
  decide (value ≠ .vnone ∧ value ≠ .vstr "")

/-- `getattr(self, f'validate_{rule_type.lower()}', None)`: the dispatch
table of implemented validators. -/
def lookupValidator (rule_type : String) :
    Option (PyVal → RuleConfig → Bool) :=
  if pyLower rule_type = "range" then some validate_range
  else if pyLower rule_type = "pattern" then some validate_pattern
  else if pyLower rule_type = "not_null" then some validate_not_null
  else none

/-- `DataValidator.validate_record`: iterate the active rules, look up the
validator for each rule type, collect one failure message per failing
implemented rule, and pass iff no failure was collected. -/
def validate_record (record_data : List (String × PyVal))
    (rules : List VRule) : Bool × List String :=
  let validation_rules := rules.filter (fun r => r.is_active)
  let errors := validation_rules.foldl (fun errs rule =>
    match lookupValidator rule.rule_type with
    | some f =>
      if f ((record_data.lookup rule.column_name).getD .vnone) rule.rule_config then errs
      else errs ++ [rule.column_name ++ ": " ++ rule.rule_type ++ " validation failed"]
    | none => errs) []
  (errors.length == 0, errors)

/-- A rule fails on a record exactly when its type has an implemented
validator and that validator rejects the record's value for the rule's
column. -/
def ruleFails (record_data : List (String × PyVal)) (r : VRule) : Bool :=
  match lookupValidator r.rule_type with
  | some f => ! f ((record_data.lookup r.column_name).getD .vnone) r.rule_config
  | none => false

/-- The failure message `validate_record` records for a failing rule. -/
def errMsg (r : VRule) : String :=
  r.column_name ++ ": " ++ r.rule_type ++ " validation failed"

/-! ### Concrete inputs -/

/-- The specification's scenario CSV `speed,rpm / 10,1000 / ,1200 /
10,1000` as `pd.read_csv` parses it: `speed` becomes `float64` (the null
forces the numeric column to floats), `rpm` stays `int64`. -/
def scenarioDf : DataFrame :=
  { cols :=
      [("speed", { dtype := .float64, cells := [some "10.0", none, some "10.0"] }),
       ("rpm", { dtype := .int64, cells := [some "1000", some "1200", some "1000"] })] }

/-- A header-only CSV: columns but zero data rows, hence
`total_records = 0`. -/
def headerOnlyDf : DataFrame :=
  { cols :=
      [("speed", { dtype := .object, cells := [] }),
       ("rpm", { dtype := .object, cells := [] })] }

/-- A fresh database state: nothing ingested yet, no processing error
recorded. -/
def db0 : DB :=
  { schema := [], records := [], reports := [], datasetTotalRows := 0,
    rawProcessed := false, rawEncoding := "utf-8", rawDelimiter := ",",
    rawProcessingError := "" }

/-! ### Helper lemmas -/

/-- The row loop's accounting invariant: every element lands in exactly one
of the staging list and the error count. -/
theorem processRows_length (f : α → Except String β) (l : List α) :
    (processRows f l).1.length + (processRows f l).2 = l.length := by
  induction l with
  | nil => rfl
  | cons a t ih =>
    unfold processRows
    cases f a <;> simp only [List.length_cons] <;> omega

/-- Two key-sorted association lists that are permutations of each other
and have no duplicate keys are equal. -/
theorem sorted_perm_eq_of_nodup_keys :
    ∀ {l₁ l₂ : List (String × JVal)}, l₁.Sorted keyLe → l₂.Sorted keyLe →
      l₁.Perm l₂ → (l₁.map Prod.fst).Nodup → l₁ = l₂ := by
  intro l₁
  induction l₁ with
  | nil =>
    intro l₂ _ _ hp _
    exact (hp.symm.eq_nil).symm ▸ rfl
  | cons a t ih =>
    intro l₂ hs₁ hs₂ hp hn
    cases l₂ with
    | nil => exact absurd hp.eq_nil (by simp)
    | cons b t₂ =>
      have hb : a = b := by
        by_cases heq : a = b
        · exact heq
        · exfalso
          have hbt : b ∈ t := by
            rcases List.mem_cons.mp (hp.symm.subset (List.mem_cons_self b t₂)) with h | h
            · exact absurd h.symm heq
            · exact h
          have hat₂ : a ∈ t₂ := by
            rcases List.mem_cons.mp (hp.subset (List.mem_cons_self a t)) with h | h
            · exact absurd h heq
            · exact h
          have hab : keyLe a b := List.rel_of_sorted_cons hs₁ b hbt
          have hba : keyLe b a := List.rel_of_sorted_cons hs₂ a hat₂
          have hkey : a.1 = b.1 := le_antisymm hab hba
          have : b.1 ∈ t.map Prod.fst := List.mem_map_of_mem Prod.fst hbt
          rw [← hkey] at this
          exact (List.nodup_cons.mp hn).1 this
      subst hb
      have ht : t.Perm t₂ := hp.cons_inv
      rw [ih hs₁.of_cons hs₂.of_cons ht (List.nodup_cons.mp hn).2]

/-- `takeDigits` consumes an all-digit list whole. -/
theorem takeDigits_of_all (cs : List Char) (h : cs.all Char.isDigit = true) :
    takeDigits cs = (cs, []) := by
  induction cs with
  | nil => rfl
  | cons c t ih =>
    simp only [List.all_cons, Bool.and_eq_true] at h
    simp [takeDigits, h.1, ih h.2]

/-- An all-digit list contains no decimal point. -/
theorem no_dot_of_all_digits (cs : List Char) (h : cs.all Char.isDigit = true) :
    '.' ∉ cs := by
  intro hmem
  have := List.all_eq_true.mp h '.' hmem
  exact absurd this (by decide)

/-- An integer literal parses as a number and has no decimal point. -/
theorem isIntLit_parses (s : String) (h : isIntLit s = true) :
    isNumStr s = true ∧ containsDot s = false := by
  unfold isIntLit at h
  rcases hd : s.data with _ | ⟨c, t⟩
  · rw [hd] at h; simp at h
  · rw [hd] at h
    by_cases hc : c = '+' ∨ c = '-'
    · simp only [hc, if_pos, decide_eq_true_eq] at h
      obtain ⟨hne, hdig⟩ := h
      have hne' : t.isEmpty = false := by
        rcases t with _ | _
        · exact absurd rfl hne
        · rfl
      constructor
      · unfold isNumStr strToRat
        rcases hc with hc | hc <;>
          simp [hd, hc, parseSign, parseFrac, takeDigits_of_all t hdig, hne']
      · unfold containsDot
        rw [hd]
        have ht : '.' ∉ t := no_dot_of_all_digits t hdig
        have hcne : '.' ≠ c := by
          rcases hc with hc | hc <;> subst hc <;> decide
        simp [List.mem_cons, hcne, ht]
    · simp [hc] at h
      obtain ⟨hcd, htd⟩ := h
      have hall : (c :: t).all Char.isDigit = true := by
        rw [List.all_eq_true]
        intro x hx
        rcases List.mem_cons.mp hx with hx | hx
        · exact hx ▸ hcd
        · exact htd x hx
      have hcp : ¬ c = '+' := fun hcc => hc (Or.inl hcc)
      have hcm : ¬ c = '-' := fun hcc => hc (Or.inr hcc)
      constructor
      · unfold isNumStr strToRat
        simp [hd, parseSign, hcp, hcm, takeDigits_of_all (c :: t) hall, parseFrac]
      · unfold containsDot
        rw [hd]
        have hcne : '.' ≠ c := fun hcc => absurd (hcc ▸ hcd) (by decide)
        have hnt : '.' ∉ t := no_dot_of_all_digits t (List.all_eq_true.mpr htd)
        simp [List.mem_cons, hcne, hnt]

/-- The error-collecting fold of `validate_record` appends exactly one
message per failing rule, in rule order. -/
theorem validate_foldl (record_data : List (String × PyVal)) :
    ∀ (l : List VRule) (acc : List String),
      List.foldl (fun errs rule =>
        match lookupValidator rule.rule_type with
        | some f =>
          if f ((record_data.lookup rule.column_name).getD .vnone) rule.rule_config then errs
          else errs ++ [rule.column_name ++ ": " ++ rule.rule_type ++ " validation failed"]
        | none => errs) acc l =
      acc ++ (l.filter (ruleFails record_data)).map errMsg := by
  intro l
  induction l with
  | nil => intro acc; simp
  | cons r t ih =>
    intro acc
    simp only [List.foldl_cons, List.filter_cons]
    cases hv : lookupValidator r.rule_type with
    | none => simp [ruleFails, hv, ih]
    | some f =>
      by_cases hf : f ((record_data.lookup r.column_name).getD .vnone) r.rule_config
      · simp [ruleFails, hv, hf, ih]
      · simp [ruleFails, hv, hf, ih, errMsg]

/-- The failure list of `validate_record` is the failing active rules'
messages. -/
theorem validate_record_errors (record_data : List (String × PyVal))
    (rules : List VRule) :
    (validate_record record_data rules).2 =
      ((rules.filter (fun r => r.is_active)).filter (ruleFails record_data)).map errMsg := by
  unfold validate_record
  simp only [validate_foldl record_data, List.nil_append]

/-! ### Claim theorems -/

/-- C1: For the scenario CSV `speed,rpm / 10,1000 / ,1200 / 10,1000`,
rows 1 and 3 are value-identical and receive the same content hash, yet
the run reports `duplicate_rows = 0` in the result summary and
`duplicate_records = 0` in the quality report: the duplicate counter is
never incremented, so the claimed "at least 1" is refuted by evaluation
of the code at the scenario input. -/
theorem duplicate_pair_reported_zero_on_scenario :
    (processCsvBody "utf-8" "," scenarioDf db0).map (fun p => p.1.records.length) = .ok 3 ∧
    (processCsvBody "utf-8" "," scenarioDf db0).map
        (fun p => (p.1.records.map (fun r => r.data))[0]?) =
      (processCsvBody "utf-8" "," scenarioDf db0).map
        (fun p => (p.1.records.map (fun r => r.data))[2]?) ∧
    (processCsvBody "utf-8" "," scenarioDf db0).map
        (fun p => (p.1.records.map (fun r => r.data_hash))[0]?) =
      (processCsvBody "utf-8" "," scenarioDf db0).map
        (fun p => (p.1.records.map (fun r => r.data_hash))[2]?) ∧
    (processCsvBody "utf-8" "," scenarioDf db0).map (fun p => p.2.duplicate_rows) = .ok 0 ∧
    (processCsvBody "utf-8" "," scenarioDf db0).map
        (fun p => p.1.reports.map (fun r => r.duplicate_records)) = .ok [0] :=
  ⟨rfl, rfl, rfl, rfl, rfl⟩

/-- C2: When ingestion fails (here: a header-only file with no data rows),
the `except` branch's write of `raw_file.processing_error` happens inside
the same atomic transaction that the re-raised `ValidationError` then
aborts, so the database keeps its previous `processing_error` value (the
empty string) — the failure reason does not survive — while the rest of
the rollback and the typed re-raise behave as claimed. -/
theorem processing_error_rolled_back_on_failure :
    (process_csv (.ok ("utf-8", ",", headerOnlyDf)) db0).1 = db0 ∧
    (process_csv (.ok ("utf-8", ",", headerOnlyDf)) db0).1.rawProcessingError = "" ∧
    (process_csv (.ok ("utf-8", ",", headerOnlyDf)) db0).2 =
      .error "CSV処理中にエラーが発生しました: CSVファイルにデータが含まれていません" :=
  ⟨rfl, rfl, rfl⟩

/-- C3 counterexample: an ingestion run with `total_records = 0` (a
header-only file) raises a `ValidationError` — it does not produce
`quality_score = 0`; no quality report is even created. -/
theorem empty_run_raises_rather_than_scoring_zero :
    dfNumRows headerOnlyDf = 0 ∧
    (process_csv (.ok ("utf-8", ",", headerOnlyDf)) db0).2 =
      .error "CSV処理中にエラーが発生しました: CSVファイルにデータが含まれていません" ∧
    (process_csv (.ok ("utf-8", ",", headerOnlyDf)) db0).1.reports = [] :=
  ⟨rfl, rfl, rfl⟩

/-- C3 (amended): every ingestion run that completes has
`total_records > 0` and returns `quality_score =
valid_records / total_records * 100` over the quality report it created;
a run whose input has zero data rows raises the typed ingestion error
before any score is computed; the `total_records = 0 → 0` guard lives in
the quality-report serializer `get_quality_score`, not in ingestion. -/
theorem quality_score_formula (encoding delimiter : String) (df : DataFrame) (db : DB)
    (hcols : 0 < df.cols.length) (hrows : 0 < dfNumRows df) :
    (∃ db' res, processCsvBody encoding delimiter df db = .ok (db', res) ∧
      ∃ rep, db'.reports = db.reports ++ [rep] ∧
        0 < rep.total_records ∧
        res.quality_score = (rep.valid_records : Rat) / (rep.total_records : Rat) * 100) ∧
    (∀ df₀ : DataFrame, dfNumRows df₀ = 0 →
      ∃ e, (process_csv (.ok (encoding, delimiter, df₀)) db).2 = .error e) ∧
    (∀ rep : QualityReport, rep.total_records = 0 → get_quality_score rep = 0) := by
  refine ⟨?_, ?_, ?_⟩
  · have hne : dfEmpty df = false := by
      unfold dfEmpty
      rcases hcs : df.cols with _ | ⟨c, cs⟩
      · rw [hcs] at hcols; simp at hcols
      · simp only [List.isEmpty_cons, Bool.false_or, beq_eq_false_iff_ne, ne_eq]
        omega
    unfold processCsvBody
    rw [hne]
    simp only [Bool.false_eq_true, if_false]
    refine ⟨_, _, rfl, _, rfl, ?_, rfl⟩
    unfold create_quality_report
    simpa using hrows
  · intro df₀ h0
    have hemp : dfEmpty df₀ = true := by
      unfold dfEmpty
      rw [h0]
      simp
    have hbody : processCsvBody encoding delimiter df₀ db =
        .error "CSVファイルにデータが含まれていません" := by
      unfold processCsvBody
      rw [hemp]
      simp
    refine ⟨"CSV処理中にエラーが発生しました: " ++ "CSVファイルにデータが含まれていません", ?_⟩
    simp [process_csv, hbody]
  · intro rep h0
    unfold get_quality_score
    rw [h0]
    simp

/-- C3 witness: the amended statement applied to the scenario input. -/
theorem quality_score_formula_witness :
    ∃ db' res, processCsvBody "utf-8" "," scenarioDf db0 = .ok (db', res) ∧
      ∃ rep, db'.reports = db0.reports ++ [rep] ∧
        0 < rep.total_records ∧
        res.quality_score = (rep.valid_records : Rat) / (rep.total_records : Rat) * 100 :=
  (quality_score_formula "utf-8" "," scenarioDf db0 (by decide) (by decide)).1

/-- C4: the per-row loop sends every row to exactly one of the staged
list and the error count, so for any dataframe with at least one column
and one row the pipeline completes with
`processed_rows + error_rows = total_rows`. -/
theorem materialized_plus_errors_eq_total :
    (∀ (f : Nat → Except String RecordRow) (l : List Nat),
      (processRows f l).1.length + (processRows f l).2 = l.length) ∧
    ∀ (encoding delimiter : String) (df : DataFrame) (db : DB),
      0 < df.cols.length → 0 < dfNumRows df →
      ∃ db' res, processCsvBody encoding delimiter df db = .ok (db', res) ∧
        res.processed_rows + res.error_rows = dfNumRows df := by
  refine ⟨fun f l => processRows_length f l, ?_⟩
  intro encoding delimiter df db hcols hrows
  have hne : dfEmpty df = false := by
    unfold dfEmpty
    rcases hcs : df.cols with _ | ⟨c, cs⟩
    · rw [hcs] at hcols; simp at hcols
    · simp only [List.isEmpty_cons, Bool.false_or, beq_eq_false_iff_ne, ne_eq]
      omega
  unfold processCsvBody
  rw [hne]
  simp only [Bool.false_eq_true, if_false]
  refine ⟨_, _, rfl, ?_⟩
  have := processRows_length (buildRecord df (infer_column_types df))
    (List.range (dfNumRows df))
  simpa using this

/-- C4 witness: the pipeline part applied to the scenario dataframe. -/
theorem materialized_plus_errors_eq_total_witness :
    ∃ db' res, processCsvBody "utf-8" "," scenarioDf db0 = .ok (db', res) ∧
      res.processed_rows + res.error_rows = dfNumRows scenarioDf :=
  materialized_plus_errors_eq_total.2 "utf-8" "," scenarioDf db0 (by decide) (by decide)

/-- C7: `detect_encoding` is total (the `try` swallows read and detector
failures) and returns the detected encoding exactly when the detection
confidence strictly exceeds 0.7, UTF-8 in every other case — read failure,
detector failure, or low confidence — and consults only the first 10000
bytes of the file. -/
theorem detect_encoding_spec (readBytes : Except String (List Nat))
    (chardet : List Nat → Except String ChardetResult) :
    (∀ e, readBytes = .error e → detect_encoding readBytes chardet = some "utf-8") ∧
    (∀ bs e, readBytes = .ok bs → chardet (bs.take 10000) = .error e →
      detect_encoding readBytes chardet = some "utf-8") ∧
    (∀ bs r, readBytes = .ok bs → chardet (bs.take 10000) = .ok r →
      detect_encoding readBytes chardet =
        (if 7 / 10 < r.confidence then r.encoding else some "utf-8")) ∧
    (∀ bs bs', bs.take 10000 = bs'.take 10000 →
      detect_encoding (.ok bs) chardet = detect_encoding (.ok bs') chardet) := by
  refine ⟨?_, ?_, ?_, ?_⟩
  · intro e h; subst h; rfl
  · intro bs e h₁ h₂; subst h₁; simp [detect_encoding, h₂]
  · intro bs r h₁ h₂; subst h₁; simp [detect_encoding, h₂]
  · intro bs bs' h; simp [detect_encoding, h]

/-- C7 witness: high-confidence detection on a concrete input returns the
detected encoding. -/
theorem detect_encoding_spec_witness :
    detect_encoding (.ok [130, 160])
      (fun _ => .ok { encoding := some "cp932", confidence := 9 / 10 }) = some "cp932" := by
  have h := (detect_encoding_spec (.ok [130, 160])
    (fun _ => .ok { encoding := some "cp932", confidence := 9 / 10 })).2.2.1
    [130, 160] { encoding := some "cp932", confidence := 9 / 10 } rfl rfl
  rw [h]
  norm_num

/-- C9: a rule type with no `validate_<type>` implementation — in
particular UNIQUE and CUSTOM — resolves to no validator and is skipped by
`validate_record`: it never fails a record and contributes no failure
message. -/
theorem unknown_rule_types_skipped :
    lookupValidator "UNIQUE" = none ∧ lookupValidator "CUSTOM" = none ∧
    ∀ (record_data : List (String × PyVal)) (rules : List VRule) (r : VRule),
      lookupValidator r.rule_type = none →
      validate_record record_data (r :: rules) = validate_record record_data rules := by
  refine ⟨rfl, rfl, ?_⟩
  intro record_data rules r h
  unfold validate_record
  by_cases ha : r.is_active
  · simp [List.filter_cons, ha, h]
  · simp [List.filter_cons, ha]

/-- C9 witness: an active UNIQUE rule changes nothing. -/
theorem unknown_rule_types_skipped_witness :
    validate_record [("speed", PyVal.vnum 5)]
        [{ column_name := "speed", rule_type := "UNIQUE", rule_config := {},
           is_active := true }] =
      validate_record [("speed", PyVal.vnum 5)] [] :=
  unknown_rule_types_skipped.2.2 _ _ _ rfl

/-- C6: the content hash is the SHA-256 digest of the key-sorted canonical
JSON serialization, so two rows with equal value mappings — the same
key/value pairs in any order, null values included — hash identically. -/
theorem generate_data_hash_key_order_invariant (d₁ d₂ : List (String × JVal))
    (hperm : d₁.Perm d₂) (hkeys : (d₁.map Prod.fst).Nodup) :
    generate_data_hash d₁ = generate_data_hash d₂ := by
  unfold generate_data_hash jsonDumpsSorted
  suffices h : d₁.insertionSort keyLe = d₂.insertionSort keyLe by rw [h]
  apply sorted_perm_eq_of_nodup_keys
  · exact List.sorted_insertionSort keyLe d₁
  · exact List.sorted_insertionSort keyLe d₂
  · exact (List.perm_insertionSort keyLe d₁).trans
      (hperm.trans (List.perm_insertionSort keyLe d₂).symm)
  · exact (((List.perm_insertionSort keyLe d₁).map Prod.fst).nodup_iff).mpr hkeys

/-- C6 witness: key order shuffled, null value included. -/
theorem generate_data_hash_key_order_invariant_witness :
    generate_data_hash [("speed", JVal.jnum "10.0"), ("rpm", JVal.null)] =
      generate_data_hash [("rpm", JVal.null), ("speed", JVal.jnum "10.0")] :=
  generate_data_hash_key_order_invariant _ _ (by decide) (by decide)

/-- C8: a record passes exactly when no active rule fails, the failure
list holds one entry per failing active rule (all failures are collected),
and a RANGE rule fails on values that do not coerce to a number while a
missing min or max bound leaves that side unconstrained (bounds are
inclusive). -/
theorem validate_record_spec :
    (∀ (record_data : List (String × PyVal)) (rules : List VRule),
      ((validate_record record_data rules).1 = true ↔
        ∀ r ∈ rules, r.is_active = true → ruleFails record_data r = false) ∧
      (validate_record record_data rules).2.length =
        (rules.filter (fun r => r.is_active && ruleFails record_data r)).length) ∧
    (∀ (value : PyVal) (config : RuleConfig), pyFloat value = none →
      validate_range value config = false) ∧
    (∀ (value : PyVal) (q : Rat) (config : RuleConfig), pyFloat value = some q →
      (validate_range value config = true ↔
        (∀ m, config.min = some m → m ≤ q) ∧ (∀ M, config.max = some M → q ≤ M))) := by
  refine ⟨?_, ?_, ?_⟩
  · intro record_data rules
    have hfst : (validate_record record_data rules).1 =
        ((validate_record record_data rules).2.length == 0) := rfl
    have he := validate_record_errors record_data rules
    constructor
    · rw [hfst, he]
      simp only [beq_iff_eq, List.length_eq_zero, List.map_eq_nil_iff,
        List.filter_eq_nil_iff, List.mem_filter]
      constructor
      · intro hh r hr ha
        rw [Bool.eq_false_iff]
        intro hf
        exact hh r ⟨hr, ha⟩ hf
      · intro hh r hr hf
        exact absurd hf (by simp [hh r hr.1 hr.2])
    · rw [he]
      rw [List.length_map, List.filter_filter]
      exact congrArg List.length (List.filter_congr (fun a _ => by rw [Bool.and_comm]))
  · intro value config h
    simp [validate_range, h]
  · intro value q config h
    unfold validate_range
    rw [h]
    rcases hm : config.min with _ | m <;> rcases hM : config.max with _ | M <;>
      simp [hm, hM, not_lt]

/-- C8 witness: an in-range numeric value passes a RANGE rule with both
bounds. -/
theorem validate_record_spec_witness :
    validate_range (.vnum 5) { min := some 1, max := some 10 } = true := by
  have h := validate_record_spec.2.2 (.vnum 5) 5
    { min := some 1, max := some 10 } rfl
  rw [h]
  constructor
  · intro m hm
    obtain rfl : (1 : Rat) = m := Option.some_inj.mp hm
    norm_num
  · intro M hM
    obtain rfl : (10 : Rat) = M := Option.some_inj.mp hM
    norm_num

/-- C10: a PATTERN rule with a missing or empty pattern passes every
value, and for a compiled pattern the check succeeds exactly when some
prefix of the value's string form is in the pattern's language — anchored
at position 0, never required to consume the whole string. -/
theorem validate_pattern_spec :
    (∀ (value : PyVal) (config : RuleConfig), config.pattern = none →
      validate_pattern value config = true) ∧
    (∀ (value : PyVal) (config : RuleConfig), config.pattern = some "" →
      validate_pattern value config = true) ∧
    ∀ (p : String) (r : RegularExpression Char) (s : String),
      reCompile p = some r →
      (validate_pattern (.vstr s) { pattern := some p } = true ↔
        ∃ t u, s.data = t ++ u ∧ t ∈ r.matches') := by
  refine ⟨?_, ?_, ?_⟩
  · intro v cfg h
    simp [validate_pattern, h]
  · intro v cfg h
    simp [validate_pattern, h]
  · intro p r s hr
    by_cases hp : p = ""
    · subst hp
      have h12 : some (1 : RegularExpression Char) = some r := hr
      obtain rfl : r = 1 := (Option.some_inj.mp h12).symm
      constructor
      · intro _
        refine ⟨[], s.data, rfl, ?_⟩
        rw [RegularExpression.matches'_epsilon]
        exact (Language.mem_one []).mpr rfl
      · intro _
        rfl
    · have hshape : validate_pattern (.vstr s) { pattern := some p } =
          rePrefixMatch r s.data := by
        simp only [validate_pattern, hr, pyStr]
        rw [if_neg hp]
      rw [hshape]
      unfold rePrefixMatch
      rw [List.any_eq_true]
      constructor
      · rintro ⟨n, _, hm⟩
        exact ⟨s.data.take n, s.data.drop n, (List.take_append_drop n s.data).symm,
          (RegularExpression.rmatch_iff_matches' r _).mp hm⟩
      · rintro ⟨t, u, hsplit, hmem⟩
        refine ⟨t.length, ?_, ?_⟩
        · rw [List.mem_range]
          have : s.data.length = t.length + u.length := by
            rw [hsplit, List.length_append]
          omega
        · rw [hsplit, List.take_left]
          exact (RegularExpression.rmatch_iff_matches' r t).mpr hmem

/-- C10 witness: pattern `ab` accepts `abc` — the prefix `ab` matches,
the trailing `c` is not consumed. -/
theorem validate_pattern_spec_witness :
    ∃ t u, ("abc" : String).data = t ++ u ∧
      t ∈ ((1 : RegularExpression Char) * RegularExpression.char 'a' *
        RegularExpression.char 'b').matches' :=
  (validate_pattern_spec.2.2 "ab" _ "abc" rfl).mp (by decide)

/-- C5: on every dtype-consistent column, `infer_column_types` computes
exactly the specification's first-match priority chain over the column's
non-null values: entirely-null → STRING, all integers → INTEGER, all
numbers (a decimal point forcing FLOAT over INTEGER) → FLOAT, all
datetimes → DATETIME, boolean vocabulary → BOOLEAN, else STRING. -/
theorem infer_column_type_matches_spec_chain (c : PdSeries)
    (h : wfSeries c = true) :
    infer_column_type c = specInferType (nonNullCells c) := by
  rcases c with ⟨dt, cells⟩
  rcases dt with _ | _ | _
  case int64 =>
    unfold wfSeries at h
    rw [Bool.and_eq_true] at h
    obtain ⟨_, hint⟩ := h
    unfold infer_column_type specInferType
    by_cases hnn : (nonNullCells ⟨Dtype.int64, cells⟩).isEmpty
    · simp [hnn]
    · have hall : (nonNullCells ⟨Dtype.int64, cells⟩).all
          (fun v => isNumStr v && !containsDot v) = true := by
        rw [List.all_eq_true] at hint ⊢
        intro v hv
        obtain ⟨h1, h2⟩ := isIntLit_parses v (hint v hv)
        simp [h1, h2]
      simp [hnn, hall]
  case float64 =>
    unfold wfSeries at h
    unfold infer_column_type specInferType
    by_cases hnn : (nonNullCells ⟨Dtype.float64, cells⟩).isEmpty
    · simp [hnn]
    · rw [List.all_eq_true] at h
      have hnum : (nonNullCells ⟨Dtype.float64, cells⟩).all isNumStr = true := by
        rw [List.all_eq_true]
        intro v hv
        have hv2 := h v hv
        rw [Bool.and_eq_true] at hv2
        exact hv2.1
      have hnotint : (nonNullCells ⟨Dtype.float64, cells⟩).all
          (fun v => isNumStr v && !containsDot v) = false := by
        have hne : nonNullCells ⟨Dtype.float64, cells⟩ ≠ [] := by
          intro hcc
          rw [hcc] at hnn
          simp at hnn
        obtain ⟨v, hv⟩ := List.exists_mem_of_ne_nil _ hne
        have hdot : containsDot v = true := by
          have hv2 := h v hv
          rw [Bool.and_eq_true] at hv2
          exact hv2.2
        rw [Bool.eq_false_iff]
        intro hcontra
        have hc2 := List.all_eq_true.mp hcontra v hv
        simp [hdot] at hc2
      simp [hnn, hnum, hnotint]
  case object =>
    unfold infer_column_type specInferType
    by_cases hnn : (nonNullCells ⟨Dtype.object, cells⟩).isEmpty
    · simp [hnn]
    · by_cases h1 : (nonNullCells ⟨Dtype.object, cells⟩).all isNumStr = true
      · by_cases h2 : (nonNullCells ⟨Dtype.object, cells⟩).any containsDot = true
        · have hnotint : (nonNullCells ⟨Dtype.object, cells⟩).all
              (fun v => isNumStr v && !containsDot v) = false := by
            rw [List.any_eq_true] at h2
            obtain ⟨v, hv, hdot⟩ := h2
            rw [Bool.eq_false_iff]
            intro hcontra
            have := List.all_eq_true.mp hcontra v hv
            simp [hdot] at this
          simp [hnn, h1, h2, hnotint]
        · have hint : (nonNullCells ⟨Dtype.object, cells⟩).all
              (fun v => isNumStr v && !containsDot v) = true := by
            rw [List.all_eq_true]
            intro v hv
            have hnumv := List.all_eq_true.mp h1 v hv
            have hdotv : containsDot v = false := by
              rw [Bool.eq_false_iff]
              intro hd
              exact h2 (List.any_eq_true.mpr ⟨v, hv, hd⟩)
            simp [hnumv, hdotv]
          simp [hnn, h1, h2, hint]
      · have hnotint : (nonNullCells ⟨Dtype.object, cells⟩).all
            (fun v => isNumStr v && !containsDot v) = false := by
          rw [Bool.eq_false_iff]
          intro hcontra
          apply h1
          rw [List.all_eq_true] at hcontra ⊢
          intro v hv
          have hc2 := hcontra v hv
          rw [Bool.and_eq_true] at hc2
          exact hc2.1
        simp [hnn, h1, hnotint]

/-- C5 witness: the chain applied to a well-formed `float64` column (the
scenario's `speed`). -/
theorem infer_column_type_matches_spec_chain_witness :
    wfSeries { dtype := Dtype.float64, cells := [some "10.0", none, some "10.0"] } = true ∧
    infer_column_type { dtype := Dtype.float64, cells := [some "10.0", none, some "10.0"] } =
      specInferType (nonNullCells
        { dtype := Dtype.float64, cells := [some "10.0", none, some "10.0"] }) :=
  ⟨by decide, infer_column_type_matches_spec_chain _ (by decide)⟩

end RLake
